import Mathlib

/-!
Shallow embedding of the TeamText chat client, from
src/frontend/src/TextChat.js and src/frontend/src/AdminPage.js.

The React component state is modelled as an explicit record, each browser
callback (local send, websocket message, hide-timer fire, progress-interval
tick, unmount cleanup) as an event of a step function, and JavaScript
numbers as naturals for clock instants and as rationals for the fractional
progress value.  JavaScript truthiness defaulting (x || d) is modelled on
each type it is applied to: 0 and the empty string are falsy, arrays are
always truthy.
-/

namespace TeamText

/-- A chat message record as stored in the component's messages state.
Locally sent messages are created without a visibility field, so the field
is an option. -/
structure Message where
  id : Nat
  sender : String
  text : String
  visible : Option Bool
deriving Repr, DecidableEq

/-- One entry of the visibleTimers map: the owning message id and the
wall-clock instant recorded when the hide timer was registered.  The
JavaScript timeout handle itself carries no information relevant to the
state evolution and is omitted. -/
structure TimerEntry where
  msgId : Nat
  start : Nat
deriving Repr, DecidableEq

/-- The parsed JSON payload of an inbound websocket event; every field may
be absent. -/
structure InPayload where
  id : Option Nat
  sender : Option String
  text : Option String
deriving Repr, DecidableEq

/-- The payload transmitted over the websocket by a local send. -/
structure OutPayload where
  id : Nat
  sender : String
  text : String
deriving Repr, DecidableEq

/-- The distinguished bot identity string. -/
def botSender : String := "teamtext-bot"

/-- The fixed visibility duration MESSAGE_VISIBLE_TIME_MS. -/
def MESSAGE_VISIBLE_TIME_MS : Nat := 5000

/-- The complete mutable state of the TextChat component, together with the
ghost field outbox recording every payload actually transmitted over the
socket. -/
structure ChatState where
  messages : List Message
  timers : List TimerEntry
  loadingValue : ℚ
  text : String
  playerName : String
  wsConnected : Bool
  mounted : Bool
  outbox : List OutPayload
deriving Repr, DecidableEq

/-- JavaScript defaulting v || d on numbers: 0 is falsy. -/
def jsOrNat : Option Nat → Nat → Nat
  | some n, d => if n = 0 then d else n
  | none, d => d

/-- JavaScript defaulting v || d on strings: the empty string is falsy. -/
def jsOrStr : Option String → String → String
  | some s, d => if s = "" then d else s
  | none, d => d

/-- The trim method of JavaScript strings: remove leading and trailing
whitespace characters. -/
def jsTrim (s : String) : String :=
  String.mk (((s.data.dropWhile Char.isWhitespace).reverse.dropWhile Char.isWhitespace).reverse)

/-- Membership test of the visibleTimers map for a message id. -/
def hasTimer (ts : List TimerEntry) (id : Nat) : Bool :=
  ts.any fun e => e.msgId == id

/-- The predicate selecting a message that keeps the loader running: bot
sender and a truthy visible field. -/
def isLoadingMsg (m : Message) : Bool :=
  m.sender == botSender && m.visible.getD false

/-- Whether some message in the store is a visible bot message. -/
def anyLoading (msgs : List Message) : Bool :=
  msgs.any isLoadingMsg

/-- The scheduler effect's pass over the store: register a timer (started
at time) for every bot message that is visible and has no entry yet; the
membership test sees entries added earlier in the same pass. -/
def addTimers (time : Nat) (msgs : List Message) (ts : List TimerEntry) : List TimerEntry :=
  msgs.foldl
    (fun acc m => if isLoadingMsg m && !hasTimer acc m.id then acc ++ [⟨m.id, time⟩] else acc)
    ts

/-- The visibility-scheduler effect applied to the component state. -/
def registerTimers (time : Nat) (s : ChatState) : ChatState :=
  { s with timers := addTimers time s.messages s.timers }

/-- The else-branch of the progress effect: when no bot message is visible
the interval is not created and loadingValue is reset to 0. -/
def updateLoading (s : ChatState) : ChatState :=
  if anyLoading s.messages then s else { s with loadingValue := 0 }

/-- The effects that rerun after every change of messages, in declaration
order: the visibility scheduler, then the progress effect's idle reset. -/
def runEffects (time : Nat) (s : ChatState) : ChatState :=
  updateLoading (registerTimers time s)

/-- The onmessage handler.  A none payload models event data on which
JSON.parse threw; the exception is caught and only logged.  A parsed
payload is appended as a visible bot message only when its sender equals
the bot identity, with the id defaulting through JavaScript truthiness
(payload.id || Date.now()) and the text through (payload.text || ''). -/
def onMessage (time : Nat) (p : Option InPayload) (s : ChatState) : ChatState :=
  match p with
  | none => s
  | some payload =>
    if payload.sender == some botSender then
      runEffects time
        { s with messages := s.messages ++
            [⟨jsOrNat payload.id time, botSender, jsOrStr payload.text "", some true⟩] }
    else s

/-- The send handler: trim the composed text, return early when the trimmed
text is empty, otherwise append the local message (which has no visibility
field), clear the input, and transmit over the websocket only when it is
open. -/
def send (time : Nat) (s : ChatState) : ChatState :=
  let trimmed := jsTrim s.text
  if trimmed = "" then s
  else
    let s1 := runEffects time
      { s with messages := s.messages ++ [⟨time, s.playerName, trimmed, none⟩], text := "" }
    if s1.wsConnected then { s1 with outbox := s1.outbox ++ [⟨time, s.playerName, trimmed⟩] }
    else s1

/-- The hide-timer callback for a message id: map over the store setting
visible to false on every message with that id, delete the timer entry, and
rerun the effects triggered by the state update. -/
def fireTimer (id : Nat) (time : Nat) (s : ChatState) : ChatState :=
  runEffects time
    { s with
      messages := s.messages.map fun m =>
        if m.id = id then { m with visible := some false } else m,
      timers := s.timers.filter fun e => e.msgId != id }

/-- The Math.min of a spread of naturals (the empty case is unreachable in
the code and mapped to 0). -/
def listMin : List Nat → Nat
  | [] => 0
  | n :: rest => rest.foldl Nat.min n

/-- The start instants of all registered timers, with falsy (zero) values
removed by the filter over Boolean. -/
def activeStarts (ts : List TimerEntry) : List Nat :=
  (ts.map TimerEntry.start).filter fun n => n != 0

/-- One tick of the progress interval.  The interval only exists while the
component is mounted and some bot message is visible; a tick recomputes
loadingValue from scratch as min(100, (elapsed / 5000) * 100) measured from
the earliest registered nonzero start. -/
def progressTickState (now : Nat) (s : ChatState) : ChatState :=
  if s.mounted && anyLoading s.messages then
    if (activeStarts s.timers).isEmpty then { s with loadingValue := 0 }
    else
      { s with loadingValue :=
          (min 100 ((((now : ℚ) - (listMin (activeStarts s.timers) : ℚ)) /
            (MESSAGE_VISIBLE_TIME_MS : ℚ)) * 100)) }
  else s

/-- The unmount cleanups: cancel every pending hide timer without firing
it, clear the sampling interval, and close the websocket. -/
def teardownState (s : ChatState) : ChatState :=
  { s with timers := [], mounted := false, wsConnected := false }

/-- The browser callbacks that can run against the component state. -/
inductive Event where
  | setText (t : String)
  | localSend (time : Nat)
  | inbound (time : Nat) (p : Option InPayload)
  | timerFire (id : Nat) (time : Nat)
  | progressTick (now : Nat)
  | wsOpen
  | wsClose
  | teardown
deriving Repr, DecidableEq

/-- One step of the component.  Each callback can only run while the
facility that invokes it exists: a mounted view for the input handlers, an
open socket for inbound events, a registered (not cancelled) timer for a
hide callback, and a live interval for a sampling tick. -/
def step (s : ChatState) (e : Event) : ChatState :=
  match e with
  | .setText t => if s.mounted then { s with text := t } else s
  | .localSend time => if s.mounted then send time s else s
  | .inbound time p => if s.mounted && s.wsConnected then onMessage time p s else s
  | .timerFire id time => if s.mounted && hasTimer s.timers id then fireTimer id time s else s
  | .progressTick now => progressTickState now s
  | .wsOpen => if s.mounted then { s with wsConnected := true } else s
  | .wsClose => { s with wsConnected := false }
  | .teardown => teardownState s

/-- Run a sequence of events. -/
def stepAll (s : ChatState) (es : List Event) : ChatState :=
  es.foldl step s

/-- The initial component state: the hard-coded waiting message, empty
input, no timers, socket not yet open. -/
def initState (playerName : String) : ChatState :=
  { messages :=
      [⟨1, botSender,
        "You're waiting for a message from another texter. It should appear shortly...",
        some true⟩]
  , timers := []
  , loadingValue := 0
  , text := ""
  , playerName := playerName
  , wsConnected := false
  , mounted := true
  , outbox := [] }

/-- The component state after the mount-time effect pass. -/
def mountState (time : Nat) (playerName : String) : ChatState :=
  runEffects time (initState playerName)

/-- A raw participant record as returned by the listing endpoint; optional
fields may be absent. -/
structure RawUser where
  user_id : String
  player_name : Option String
  connected : Option Bool
  messages_sent : Option (List String)
deriving Repr, DecidableEq

/-- The client's normalized participant form. -/
structure Participant where
  user_id : String
  player_name : String
  connected : Bool
  messages_sent : List String
deriving Repr, DecidableEq

/-- The normalization applied by fetchParticipants to one record: the
player name defaults through JavaScript truthiness (u.player_name ||
u.user_id), connected is coerced with a double negation, and messages_sent
defaults through (u.messages_sent || []) where an array is always truthy,
so a present empty list is kept. -/
def normalizeUser (u : RawUser) : Participant :=
  { user_id := u.user_id
  , player_name := jsOrStr u.player_name u.user_id
  , connected := u.connected.getD false
  , messages_sent := u.messages_sent.getD [] }

/-- The map applied by fetchParticipants to the fetched listing. -/
def normalizeUsers (data : List RawUser) : List Participant :=
  data.map normalizeUser

/-- Allowed evolution of one stored message record: id, sender and text are
frozen, and the visible field is either untouched or set to false.  In
particular a visible field equal to some false can never change again. -/
def MsgEvolves (m m' : Message) : Prop :=
  m'.id = m.id ∧ m'.sender = m.sender ∧ m'.text = m.text ∧
    (m'.visible = m.visible ∨ m'.visible = some false)

/-- Allowed evolution of the whole store: append-only (the length never
shrinks) and every already-present position keeps its record up to
MsgEvolves, so nothing is removed, reordered, or rewritten otherwise. -/
def StoreEvolves (old new : List Message) : Prop :=
  old.length ≤ new.length ∧
    ∀ i : Nat, ∀ h : i < old.length, ∀ h' : i < new.length,
      MsgEvolves (old.get ⟨i, h⟩) (new.get ⟨i, h'⟩)

/-! Projection lemmas for the effect functions. -/

@[simp] theorem registerTimers_messages (t : Nat) (s : ChatState) :
    (registerTimers t s).messages = s.messages := rfl

@[simp] theorem registerTimers_timers (t : Nat) (s : ChatState) :
    (registerTimers t s).timers = addTimers t s.messages s.timers := rfl

@[simp] theorem registerTimers_loadingValue (t : Nat) (s : ChatState) :
    (registerTimers t s).loadingValue = s.loadingValue := rfl

@[simp] theorem registerTimers_text (t : Nat) (s : ChatState) :
    (registerTimers t s).text = s.text := rfl

@[simp] theorem registerTimers_playerName (t : Nat) (s : ChatState) :
    (registerTimers t s).playerName = s.playerName := rfl

@[simp] theorem registerTimers_wsConnected (t : Nat) (s : ChatState) :
    (registerTimers t s).wsConnected = s.wsConnected := rfl

@[simp] theorem registerTimers_mounted (t : Nat) (s : ChatState) :
    (registerTimers t s).mounted = s.mounted := rfl

@[simp] theorem registerTimers_outbox (t : Nat) (s : ChatState) :
    (registerTimers t s).outbox = s.outbox := rfl

@[simp] theorem updateLoading_messages (s : ChatState) :
    (updateLoading s).messages = s.messages := by
  unfold updateLoading
  split <;> rfl

@[simp] theorem updateLoading_timers (s : ChatState) :
    (updateLoading s).timers = s.timers := by
  unfold updateLoading
  split <;> rfl

@[simp] theorem updateLoading_text (s : ChatState) :
    (updateLoading s).text = s.text := by
  unfold updateLoading
  split <;> rfl

@[simp] theorem updateLoading_playerName (s : ChatState) :
    (updateLoading s).playerName = s.playerName := by
  unfold updateLoading
  split <;> rfl

@[simp] theorem updateLoading_wsConnected (s : ChatState) :
    (updateLoading s).wsConnected = s.wsConnected := by
  unfold updateLoading
  split <;> rfl

@[simp] theorem updateLoading_mounted (s : ChatState) :
    (updateLoading s).mounted = s.mounted := by
  unfold updateLoading
  split <;> rfl

@[simp] theorem updateLoading_outbox (s : ChatState) :
    (updateLoading s).outbox = s.outbox := by
  unfold updateLoading
  split <;> rfl

theorem updateLoading_loadingValue (s : ChatState) :
    (updateLoading s).loadingValue =
      (if anyLoading s.messages then s.loadingValue else 0) := by
  unfold updateLoading
  split <;> simp_all

@[simp] theorem runEffects_messages (t : Nat) (s : ChatState) :
    (runEffects t s).messages = s.messages := by
  unfold runEffects
  simp

@[simp] theorem runEffects_timers (t : Nat) (s : ChatState) :
    (runEffects t s).timers = addTimers t s.messages s.timers := by
  unfold runEffects
  simp

@[simp] theorem runEffects_text (t : Nat) (s : ChatState) :
    (runEffects t s).text = s.text := by
  unfold runEffects
  simp

@[simp] theorem runEffects_playerName (t : Nat) (s : ChatState) :
    (runEffects t s).playerName = s.playerName := by
  unfold runEffects
  simp

@[simp] theorem runEffects_wsConnected (t : Nat) (s : ChatState) :
    (runEffects t s).wsConnected = s.wsConnected := by
  unfold runEffects
  simp

@[simp] theorem runEffects_mounted (t : Nat) (s : ChatState) :
    (runEffects t s).mounted = s.mounted := by
  unfold runEffects
  simp

@[simp] theorem runEffects_outbox (t : Nat) (s : ChatState) :
    (runEffects t s).outbox = s.outbox := by
  unfold runEffects
  simp

theorem runEffects_loadingValue (t : Nat) (s : ChatState) :
    (runEffects t s).loadingValue =
      (if anyLoading s.messages then s.loadingValue else 0) := by
  unfold runEffects
  rw [updateLoading_loadingValue]
  simp

/-! Shape lemmas for the individual handlers. -/

theorem send_eq_of_trim_empty (t : Nat) (s : ChatState) (h : jsTrim s.text = "") :
    send t s = s := by
  unfold send
  simp [h]

theorem send_messages (t : Nat) (s : ChatState) :
    (send t s).messages =
      (if jsTrim s.text = "" then s.messages
       else s.messages ++ [⟨t, s.playerName, jsTrim s.text, none⟩]) := by
  unfold send
  by_cases h : jsTrim s.text = "" <;> simp [h]
  split <;> simp

theorem send_text (t : Nat) (s : ChatState) :
    (send t s).text = (if jsTrim s.text = "" then s.text else "") := by
  unfold send
  by_cases h : jsTrim s.text = "" <;> simp [h]
  split <;> simp

theorem send_outbox (t : Nat) (s : ChatState) :
    (send t s).outbox =
      (if jsTrim s.text = "" then s.outbox
       else if s.wsConnected then s.outbox ++ [⟨t, s.playerName, jsTrim s.text⟩]
       else s.outbox) := by
  unfold send
  by_cases h : jsTrim s.text = "" <;> simp [h]
  split <;> simp_all

theorem onMessage_none (t : Nat) (s : ChatState) : onMessage t none s = s := rfl

theorem onMessage_not_bot (t : Nat) (p : InPayload) (s : ChatState)
    (h : p.sender ≠ some botSender) : onMessage t (some p) s = s := by
  unfold onMessage
  simp [h]

theorem onMessage_bot_messages (t : Nat) (p : InPayload) (s : ChatState)
    (h : p.sender = some botSender) :
    (onMessage t (some p) s).messages =
      s.messages ++ [⟨jsOrNat p.id t, botSender, jsOrStr p.text "", some true⟩] := by
  unfold onMessage
  simp [h]

theorem fireTimer_messages (id t : Nat) (s : ChatState) :
    (fireTimer id t s).messages =
      s.messages.map fun m => if m.id = id then { m with visible := some false } else m := by
  unfold fireTimer
  simp

theorem progressTickState_of_not_loading (now : Nat) (s : ChatState)
    (h : anyLoading s.messages = false) : progressTickState now s = s := by
  unfold progressTickState
  simp [h]

theorem progressTickState_messages (now : Nat) (s : ChatState) :
    (progressTickState now s).messages = s.messages := by
  unfold progressTickState
  split
  · split <;> rfl
  · rfl

theorem progressTickState_timers (now : Nat) (s : ChatState) :
    (progressTickState now s).timers = s.timers := by
  unfold progressTickState
  split
  · split <;> rfl
  · rfl

/-! Evolution of the message store.  A single message record may only keep
all of its fields, or have its visible field overwritten with false; the
store may only grow at the end, with every pre-existing position evolving
pointwise. -/

theorem msgEvolves_refl (m : Message) : MsgEvolves m m :=
  ⟨rfl, rfl, rfl, Or.inl rfl⟩

theorem msgEvolves_trans {a b c : Message} (h1 : MsgEvolves a b) (h2 : MsgEvolves b c) :
    MsgEvolves a c := by
  obtain ⟨i1, s1, t1, v1⟩ := h1
  obtain ⟨i2, s2, t2, v2⟩ := h2
  refine ⟨i2.trans i1, s2.trans s1, t2.trans t1, ?_⟩
  rcases v2 with v2 | v2
  · rw [v2]
    exact v1
  · exact Or.inr v2

theorem storeEvolves_refl (l : List Message) : StoreEvolves l l :=
  ⟨le_refl _, fun _ _ _ => msgEvolves_refl _⟩

theorem storeEvolves_trans {a b c : List Message} (h1 : StoreEvolves a b)
    (h2 : StoreEvolves b c) : StoreEvolves a c := by
  obtain ⟨l1, e1⟩ := h1
  obtain ⟨l2, e2⟩ := h2
  refine ⟨l1.trans l2, fun i h h' => ?_⟩
  exact msgEvolves_trans (e1 i h (lt_of_lt_of_le h l1)) (e2 i (lt_of_lt_of_le h l1) h')

theorem storeEvolves_append (l app : List Message) : StoreEvolves l (l ++ app) := by
  refine ⟨by simp, fun i h h' => ?_⟩
  rw [List.get_append i h]
  exact msgEvolves_refl _

theorem storeEvolves_hide_map (l : List Message) (id : Nat) :
    StoreEvolves l
      (l.map fun m => if m.id = id then { m with visible := some false } else m) := by
  refine ⟨by simp, fun i h h' => ?_⟩
  rw [List.get_map]
  by_cases hm : (l.get ⟨i, h⟩).id = id
  · rw [if_pos hm]
    exact ⟨rfl, rfl, rfl, Or.inr rfl⟩
  · rw [if_neg hm]
    exact msgEvolves_refl _

/-- Every single event evolves the store only by appending and by setting
visible fields to false. -/
theorem storeEvolves_step (s : ChatState) (e : Event) :
    StoreEvolves s.messages (step s e).messages := by
  cases e with
  | setText t =>
    simp only [step]
    split <;> exact storeEvolves_refl _
  | localSend t =>
    simp only [step]
    split
    · rw [send_messages]
      split
      · exact storeEvolves_refl _
      · exact storeEvolves_append _ _
    · exact storeEvolves_refl _
  | inbound t p =>
    simp only [step]
    split
    · match p with
      | none => exact storeEvolves_refl _
      | some payload =>
        by_cases hb : payload.sender = some botSender
        · rw [onMessage_bot_messages t payload s hb]
          exact storeEvolves_append _ _
        · rw [onMessage_not_bot t payload s hb]
          exact storeEvolves_refl _
    · exact storeEvolves_refl _
  | timerFire id t =>
    simp only [step]
    split
    · rw [fireTimer_messages]
      exact storeEvolves_hide_map _ _
    · exact storeEvolves_refl _
  | progressTick now =>
    simp only [step]
    rw [progressTickState_messages]
    exact storeEvolves_refl _
  | wsOpen =>
    simp only [step]
    split <;> exact storeEvolves_refl _
  | wsClose =>
    exact storeEvolves_refl _
  | teardown =>
    exact storeEvolves_refl _

theorem storeEvolves_stepAll (s : ChatState) (es : List Event) :
    StoreEvolves s.messages (stepAll s es).messages := by
  induction es generalizing s with
  | nil => exact storeEvolves_refl _
  | cons e es ih =>
    exact storeEvolves_trans (storeEvolves_step s e) (ih (step s e))

/-! Lemmas about timer registration and deregistration. -/

theorem addTimers_cons (time : Nat) (m : Message) (msgs : List Message)
    (ts : List TimerEntry) :
    addTimers time (m :: msgs) ts =
      addTimers time msgs
        (if isLoadingMsg m && !hasTimer ts m.id then ts ++ [⟨m.id, time⟩] else ts) := rfl

theorem hasTimer_append (ts1 ts2 : List TimerEntry) (id : Nat) :
    hasTimer (ts1 ++ ts2) id = (hasTimer ts1 id || hasTimer ts2 id) := by
  simp [hasTimer, List.any_append]

/-- The scheduler pass never introduces a timer for an id that no loading
message carries. -/
theorem hasTimer_addTimers (time : Nat) (msgs : List Message) (ts : List TimerEntry)
    (id : Nat) (hmsg : ∀ m ∈ msgs, isLoadingMsg m = true → m.id ≠ id)
    (hts : hasTimer ts id = false) :
    hasTimer (addTimers time msgs ts) id = false := by
  induction msgs generalizing ts with
  | nil => exact hts
  | cons m msgs ih =>
    rw [addTimers_cons]
    refine ih _ (fun m' hm' => hmsg m' (List.mem_cons_of_mem _ hm')) ?_
    split
    · rename_i hcond
      rw [Bool.and_eq_true] at hcond
      have hne : m.id ≠ id := hmsg m (List.mem_cons_self _ _) hcond.1
      rw [hasTimer_append, hts]
      simp [hasTimer, hne]
    · exact hts

theorem hasTimer_filter_self (ts : List TimerEntry) (id : Nat) :
    hasTimer (ts.filter fun e => e.msgId != id) id = false := by
  rw [hasTimer, List.any_eq_false]
  intro e he
  rw [List.mem_filter] at he
  simp only [bne_iff_ne, ne_eq] at he
  simp [he.2]

/-- After the hide map for an id, no message with that id is still loading. -/
theorem hide_map_not_loading (msgs : List Message) (id : Nat) :
    ∀ m ∈ msgs.map (fun m => if m.id = id then { m with visible := some false } else m),
      isLoadingMsg m = true → m.id ≠ id := by
  intro m hm
  rw [List.mem_map] at hm
  obtain ⟨m0, hm0, rfl⟩ := hm
  by_cases h : m0.id = id
  · rw [if_pos h]
    intro hl
    simp [isLoadingMsg] at hl
  · rw [if_neg h]
    intro _
    exact h

theorem fireTimer_timers (id t : Nat) (s : ChatState) :
    (fireTimer id t s).timers =
      addTimers t
        (s.messages.map fun m => if m.id = id then { m with visible := some false } else m)
        (s.timers.filter fun e => e.msgId != id) := by
  unfold fireTimer
  rw [runEffects_timers]

/-- Firing the hide timer for an id removes that id from the timer map, and
the scheduler pass that reruns afterwards does not re-register it. -/
theorem fireTimer_deregisters (id t : Nat) (s : ChatState) :
    hasTimer (fireTimer id t s).timers id = false := by
  rw [fireTimer_timers]
  exact hasTimer_addTimers _ _ _ _ (hide_map_not_loading _ _) (hasTimer_filter_self _ _)

/-! Lemmas about the loading predicate. -/

theorem anyLoading_append (l1 l2 : List Message) :
    anyLoading (l1 ++ l2) = (anyLoading l1 || anyLoading l2) := by
  simp [anyLoading, List.any_append]

/-- A locally sent message never keeps the loader running: it is created
without a visibility field. -/
theorem isLoadingMsg_local (id : Nat) (sender txt : String) :
    isLoadingMsg ⟨id, sender, txt, none⟩ = false := by
  simp [isLoadingMsg]

/-! Inertness of the state after teardown. -/

theorem step_inert (s : ChatState) (e : Event) (hm : s.mounted = false)
    (ht : s.timers = []) (hw : s.wsConnected = false) : step s e = s := by
  cases e with
  | setText t => simp [step, hm]
  | localSend t => simp [step, hm]
  | inbound t p => simp [step, hm]
  | timerFire id t => simp [step, hm]
  | progressTick now => simp [step, progressTickState, hm]
  | wsOpen => simp [step, hm]
  | wsClose =>
    simp only [step]
    cases s
    simp_all
  | teardown =>
    simp only [step, teardownState]
    cases s
    simp_all

theorem stepAll_inert (s : ChatState) (es : List Event) (hm : s.mounted = false)
    (ht : s.timers = []) (hw : s.wsConnected = false) : stepAll s es = s := by
  induction es with
  | nil => rfl
  | cons e es ih =>
    rw [stepAll, List.foldl_cons, step_inert s e hm ht hw]
    exact ih

@[simp] theorem teardown_timers (s : ChatState) : (step s Event.teardown).timers = [] := rfl

@[simp] theorem teardown_messages (s : ChatState) :
    (step s Event.teardown).messages = s.messages := rfl

@[simp] theorem teardown_mounted (s : ChatState) :
    (step s Event.teardown).mounted = false := rfl

@[simp] theorem teardown_wsConnected (s : ChatState) :
    (step s Event.teardown).wsConnected = false := rfl

/-! Further helper lemmas on loading-value propagation and tick guards. -/

theorem send_loadingValue (t : Nat) (s : ChatState) (hne : jsTrim s.text ≠ "") :
    (send t s).loadingValue =
      (if anyLoading (s.messages ++ [⟨t, s.playerName, jsTrim s.text, none⟩])
       then s.loadingValue else 0) := by
  unfold send
  rw [if_neg hne]
  by_cases hw : s.wsConnected <;> simp [hw, runEffects_loadingValue]

theorem fireTimer_loadingValue (id t : Nat) (s : ChatState) :
    (fireTimer id t s).loadingValue =
      (if anyLoading (s.messages.map fun m =>
          if m.id = id then { m with visible := some false } else m)
       then s.loadingValue else 0) := by
  unfold fireTimer
  rw [runEffects_loadingValue]

theorem onMessage_bot_loading (t : Nat) (p : InPayload) (s : ChatState)
    (h : p.sender = some botSender) :
    anyLoading (onMessage t (some p) s).messages = true := by
  rw [onMessage_bot_messages t p s h, anyLoading_append]
  simp [anyLoading, isLoadingMsg]

theorem progressTickState_of_guard_false (now : Nat) (s : ChatState)
    (h : (s.mounted && anyLoading s.messages) = false) : progressTickState now s = s := by
  unfold progressTickState
  rw [if_neg]
  simp [h]

theorem activeStarts_of_nonzero (ts : List TimerEntry)
    (h0 : ∀ e ∈ ts, e.start ≠ 0) :
    activeStarts ts = ts.map TimerEntry.start := by
  unfold activeStarts
  rw [List.filter_eq_self]
  intro n hn
  rw [List.mem_map] at hn
  obtain ⟨e, he, rfl⟩ := hn
  simp [h0 e he]

theorem progressTickState_loadingValue (now : Nat) (s : ChatState)
    (hg : (s.mounted && anyLoading s.messages) = true)
    (hne : (activeStarts s.timers).isEmpty = false) :
    (progressTickState now s).loadingValue =
      min 100 ((((now : ℚ) - (listMin (activeStarts s.timers) : ℚ)) /
        (MESSAGE_VISIBLE_TIME_MS : ℚ)) * 100) := by
  unfold progressTickState
  rw [if_pos hg, if_neg (by simp [hne])]

/-! The claims. -/

/-- Claim C1, counterexample to the claim as stated.  Message ids are not
unique: after mounting at clock instant 1 and sending the local text hi at
clock instant 1, the store holds the initial bot message (id 1) and the
local message (id 1, no visibility field).  When the hide timer for id 1
fires, the hide map matches both records, so the non-bot local message is
also mutated: it gains the field visible = some false.  This contradicts
the claim that, apart from the single visibility flip of a bot-originated
message, no field of any stored message is ever mutated. -/
theorem hide_flip_touches_foreign_message :
    ((stepAll (mountState 1 "alice") [Event.setText "hi", Event.localSend 1]).messages.get? 1 =
        some ⟨1, "alice", "hi", none⟩) ∧
      ((stepAll (mountState 1 "alice")
          [Event.setText "hi", Event.localSend 1, Event.timerFire 1 5001]).messages.get? 1 =
        some ⟨1, "alice", "hi", some false⟩) := by
  exact ⟨by decide, by decide⟩

/-- Claim C1, amended: along every event sequence the store is append-only
(no message is ever removed and positions are stable), the id, sender and
text fields of a stored message are never mutated, and the only mutation of
the visible field is an id-keyed write of false by a hide action — which is
monotone (a visible field equal to some false never changes again, so a bot
message hides at most once and never reappears), but which under an id
collision also writes visible = some false on a non-bot message sharing the
fired id. -/
theorem store_evolution (s : ChatState) (es : List Event) :
    StoreEvolves s.messages (stepAll s es).messages :=
  storeEvolves_stepAll s es

/-- Witness for store_evolution at a concrete state and event sequence. -/
theorem store_evolution_witness :
    StoreEvolves (mountState 1 "alice").messages
      (stepAll (mountState 1 "alice")
        [Event.wsOpen, Event.timerFire 1 5001, Event.teardown]).messages :=
  store_evolution (mountState 1 "alice")
    [Event.wsOpen, Event.timerFire 1 5001, Event.teardown]

/-- Claim C4: an inbound transport event whose payload is not parseable as
JSON leaves the entire component state (in particular the message store)
unchanged and does not throw to the caller: the handler catches the parse
error, logs it, and returns. -/
theorem inbound_malformed_noop (s : ChatState) (t : Nat) :
    step s (Event.inbound t none) = s := by
  simp only [step]
  split
  · rfl
  · rfl

/-- Claim C6: teardown empties the timer map without firing any hide action
(the store is untouched by teardown itself), and the state after teardown
is a fixed point of the step function, so no event sequence run after
teardown can mutate the message store (or anything else). -/
theorem teardown_cancels_and_freezes (s : ChatState) (es : List Event) :
    (step s Event.teardown).timers = [] ∧
      (step s Event.teardown).messages = s.messages ∧
      stepAll (step s Event.teardown) es = step s Event.teardown := by
  refine ⟨rfl, rfl, ?_⟩
  exact stepAll_inert _ _ rfl rfl rfl

/-- Claim C5: for input whose trimmed form is nonempty, a local send
appends exactly one message to the store — the same single append whether
the socket is open or not — and when the transport is disconnected nothing
is transmitted (the outbox ghost state is unchanged). -/
theorem send_appends_regardless (s : ChatState) (t : Nat)
    (hm : s.mounted = true) (hne : jsTrim s.text ≠ "") :
    (step s (Event.localSend t)).messages =
        s.messages ++ [⟨t, s.playerName, jsTrim s.text, none⟩] ∧
      (s.wsConnected = false → (step s (Event.localSend t)).outbox = s.outbox) := by
  have hst : step s (Event.localSend t) = send t s := by simp [step, hm]
  constructor
  · rw [hst, send_messages, if_neg hne]
  · intro hw
    rw [hst, send_outbox, if_neg hne, if_neg (by simp [hw])]

/-- Witness for send_appends_regardless: a mounted, disconnected state with
composed text hi sends locally at clock instant 7. -/
theorem send_appends_regardless_witness :
    (step { initState "alice" with text := "hi" } (Event.localSend 7)).messages =
        ({ initState "alice" with text := "hi" } : ChatState).messages ++
          [⟨7, ({ initState "alice" with text := "hi" } : ChatState).playerName,
            jsTrim ({ initState "alice" with text := "hi" } : ChatState).text, none⟩] ∧
      (step { initState "alice" with text := "hi" } (Event.localSend 7)).outbox =
        ({ initState "alice" with text := "hi" } : ChatState).outbox := by
  have h := send_appends_regardless { initState "alice" with text := "hi" } 7
    (by decide) (by decide)
  exact ⟨h.1, h.2 (by decide)⟩

/-- Claim C10: a local send with input whose trimmed form is empty is a
complete no-op on the component state (nothing appended, nothing
transmitted, composed text unchanged); for any other input the appended
message's text is the trimmed input, and the composed text is cleared. -/
theorem send_trim_semantics (s : ChatState) (t : Nat) :
    (jsTrim s.text = "" → step s (Event.localSend t) = s) ∧
      (s.mounted = true → jsTrim s.text ≠ "" →
        (step s (Event.localSend t)).messages =
            s.messages ++ [⟨t, s.playerName, jsTrim s.text, none⟩] ∧
          (step s (Event.localSend t)).text = "") := by
  constructor
  · intro h
    simp only [step]
    split
    · exact send_eq_of_trim_empty t s h
    · rfl
  · intro hm hne
    have hst : step s (Event.localSend t) = send t s := by simp [step, hm]
    constructor
    · rw [hst, send_messages, if_neg hne]
    · rw [hst, send_text, if_neg hne]

/-- Witness for send_trim_semantics: whitespace-only input is a no-op at a
state composed of three blanks, and the nonempty case appends the trimmed
text. -/
theorem send_trim_semantics_witness :
    step { initState "alice" with text := "   " } (Event.localSend 7) =
        { initState "alice" with text := "   " } ∧
      (step { initState "alice" with text := " hi " } (Event.localSend 7)).messages =
          ({ initState "alice" with text := " hi " } : ChatState).messages ++
            [⟨7, ({ initState "alice" with text := " hi " } : ChatState).playerName,
              jsTrim ({ initState "alice" with text := " hi " } : ChatState).text, none⟩] ∧
        (step { initState "alice" with text := " hi " } (Event.localSend 7)).text = "" :=
  ⟨(send_trim_semantics { initState "alice" with text := "   " } 7).1 (by decide),
   (send_trim_semantics { initState "alice" with text := " hi " } 7).2 (by decide) (by decide)⟩

/-- Claim C8: when the hide timer for an id fires (the timer is registered
and the view mounted), the store mutation is exactly the id-keyed
visibility write: the new store is the old one mapped by setting visible to
false on id matches, the length (and hence order and membership) is
preserved, the store is entirely unchanged when no message carries the id
(a tolerated no-op), and the timer entry for the id is deregistered. -/
theorem timer_fire_frame (s : ChatState) (id t : Nat) (hm : s.mounted = true)
    (ht : hasTimer s.timers id = true) :
    (step s (Event.timerFire id t)).messages =
        (s.messages.map fun m =>
          if m.id = id then { m with visible := some false } else m) ∧
      (step s (Event.timerFire id t)).messages.length = s.messages.length ∧
      ((∀ m ∈ s.messages, m.id ≠ id) →
        (step s (Event.timerFire id t)).messages = s.messages) ∧
      hasTimer (step s (Event.timerFire id t)).timers id = false := by
  have hst : step s (Event.timerFire id t) = fireTimer id t s := by simp [step, hm, ht]
  rw [hst, fireTimer_messages]
  refine ⟨rfl, by simp, ?_, fireTimer_deregisters id t s⟩
  intro hno
  have hcongr : ∀ m ∈ s.messages,
      (if m.id = id then { m with visible := some false } else m) = m :=
    fun m hmem => if_neg (hno m hmem)
  rw [List.map_congr_left hcongr]
  simp

/-- Witness for timer_fire_frame: firing the registered timer for id 1 in
the freshly mounted state. -/
theorem timer_fire_frame_witness :
    (step (mountState 1 "alice") (Event.timerFire 1 5001)).messages =
        ((mountState 1 "alice").messages.map fun m =>
          if m.id = 1 then { m with visible := some false } else m) ∧
      (step (mountState 1 "alice") (Event.timerFire 1 5001)).messages.length =
        (mountState 1 "alice").messages.length ∧
      ((∀ m ∈ (mountState 1 "alice").messages, m.id ≠ 1) →
        (step (mountState 1 "alice") (Event.timerFire 1 5001)).messages =
          (mountState 1 "alice").messages) ∧
      hasTimer (step (mountState 1 "alice") (Event.timerFire 1 5001)).timers 1 = false :=
  timer_fire_frame (mountState 1 "alice") 1 5001 (by decide) (by decide)

/-- Claim C7: while no bot message is visible, a sampling tick is disabled
(the tick event leaves the state untouched, so no sampling occurs while
idle), and the zero-progress reset is an invariant of every event: if
progress is 0 whenever no bot message is visible, this still holds after
any event — store-changing events rerun the effect whose idle branch writes
0 with the same state update, so the reset takes effect immediately, well
within one sampling cadence of the last visible bot message being hidden. -/
theorem idle_progress_semantics (s : ChatState) (e : Event) (now : Nat) :
    (anyLoading s.messages = false → step s (Event.progressTick now) = s) ∧
      ((anyLoading s.messages = false → s.loadingValue = 0) →
        anyLoading (step s e).messages = false → (step s e).loadingValue = 0) := by
  constructor
  · intro h
    simp only [step]
    exact progressTickState_of_not_loading now s h
  · intro hIdle
    cases e with
    | setText t =>
      simp only [step]
      split
      · exact fun h => hIdle h
      · exact fun h => hIdle h
    | localSend t =>
      simp only [step]
      split
      · by_cases htr : jsTrim s.text = ""
        · rw [send_eq_of_trim_empty t s htr]
          exact hIdle
        · intro h
          rw [send_messages, if_neg htr] at h
          rw [send_loadingValue t s htr, if_neg (by simp [h])]
      · exact hIdle
    | inbound t p =>
      simp only [step]
      split
      · match p with
        | none => exact hIdle
        | some payload =>
          by_cases hb : payload.sender = some botSender
          · intro h
            rw [onMessage_bot_loading t payload s hb] at h
            simp at h
          · rw [onMessage_not_bot t payload s hb]
            exact hIdle
      · exact hIdle
    | timerFire id t =>
      simp only [step]
      split
      · intro h
        rw [fireTimer_messages] at h
        rw [fireTimer_loadingValue, if_neg (by simp [h])]
      · exact hIdle
    | progressTick n =>
      simp only [step]
      by_cases hg : (s.mounted && anyLoading s.messages) = true
      · intro h
        rw [progressTickState_messages] at h
        simp [h] at hg
      · rw [progressTickState_of_guard_false n s (by simpa using hg)]
        exact hIdle
    | wsOpen =>
      simp only [step]
      split
      · exact fun h => hIdle h
      · exact hIdle
    | wsClose =>
      exact hIdle
    | teardown =>
      exact hIdle

/-- Witness for idle_progress_semantics at a state with an empty store. -/
theorem idle_progress_semantics_witness :
    step { initState "alice" with messages := [] } (Event.progressTick 3) =
        { initState "alice" with messages := [] } ∧
      (step { initState "alice" with messages := [] } Event.wsOpen).loadingValue = 0 :=
  ⟨(idle_progress_semantics { initState "alice" with messages := [] } Event.wsOpen 3).1
      (by decide),
   (idle_progress_semantics { initState "alice" with messages := [] } Event.wsOpen 3).2
      (fun _ => rfl) (by decide)⟩

/-- Claim C2, counterexample to the claim as stated.  The tick computation
has no lower clamp: mounting at clock instant 5000 registers the initial
timer with start 5000, and a sampling tick at clock instant 0 (a clock
regression, explicitly included in the claim's quantification over now)
computes min(100, ((0 - 5000) / 5000) * 100) = -100, a negative progress
value, contradicting the claim that progress always lies within [0, 100]
and is never negative. -/
theorem progress_negative_on_clock_regression :
    (step (mountState 5000 "alice") (Event.progressTick 0)).loadingValue < 0 := by
  have hval : (step (mountState 5000 "alice") (Event.progressTick 0)).loadingValue =
      min 100 (((((0 : Nat) : ℚ) -
          (listMin (activeStarts (mountState 5000 "alice").timers) : ℚ)) /
        ((MESSAGE_VISIBLE_TIME_MS : Nat) : ℚ)) * 100) := by
    simp only [step]
    exact progressTickState_loadingValue 0 (mountState 5000 "alice") (by decide) (by decide)
  rw [hval]
  have hstarts : activeStarts (mountState 5000 "alice").timers = [5000] := by decide
  rw [hstarts]
  have hmin : listMin [5000] = 5000 := rfl
  rw [hmin]
  have harith : ((((0 : Nat) : ℚ) - ((5000 : Nat) : ℚ)) /
      ((MESSAGE_VISIBLE_TIME_MS : Nat) : ℚ)) * 100 = -100 := by
    rw [MESSAGE_VISIBLE_TIME_MS]
    push_cast
    norm_num
  rw [harith, min_eq_right (by norm_num : (-100 : ℚ) ≤ 100)]
  norm_num

/-- Claim C2, amended: at a sampling tick while the view is mounted, some
bot message is visible, and timers are registered (all with the nonzero
start instants the wall clock produces — a zero start would be discarded by
the truthiness filter), the progress value equals
min(100, 100 * ((now - earliest_active_start) / 5000)) with
earliest_active_start the minimum registered start; the value never exceeds
100 and is nonnegative whenever now is at or after earliest_active_start,
but for now earlier than earliest_active_start the computed value is
negative — the code has no lower clamp. -/
theorem progress_tick_formula (s : ChatState) (now : Nat) (hm : s.mounted = true)
    (hl : anyLoading s.messages = true) (hts : s.timers ≠ [])
    (h0 : ∀ e ∈ s.timers, e.start ≠ 0) :
    (step s (Event.progressTick now)).loadingValue =
        min 100 (100 * ((((now : Nat) : ℚ) -
          (listMin (s.timers.map TimerEntry.start) : ℚ)) / 5000)) ∧
      (step s (Event.progressTick now)).loadingValue ≤ 100 ∧
      (listMin (s.timers.map TimerEntry.start) ≤ now →
        0 ≤ (step s (Event.progressTick now)).loadingValue) := by
  have hAct : activeStarts s.timers = s.timers.map TimerEntry.start :=
    activeStarts_of_nonzero s.timers h0
  have hne : (activeStarts s.timers).isEmpty = false := by
    rw [hAct]
    cases hts2 : s.timers with
    | nil => exact absurd hts2 hts
    | cons e ts => rfl
  have hval : (step s (Event.progressTick now)).loadingValue =
      min 100 ((((now : ℚ) - (listMin (activeStarts s.timers) : ℚ)) /
        ((MESSAGE_VISIBLE_TIME_MS : Nat) : ℚ)) * 100) := by
    simp only [step]
    exact progressTickState_loadingValue now s (by rw [hm, hl]; rfl) hne
  have hcast : ((MESSAGE_VISIBLE_TIME_MS : Nat) : ℚ) = 5000 := by
    rw [MESSAGE_VISIBLE_TIME_MS]
    norm_num
  rw [hval, hAct, hcast]
  refine ⟨by rw [mul_comm], min_le_left _ _, ?_⟩
  intro hle
  refine le_min (by norm_num) ?_
  have h1 : (listMin (s.timers.map TimerEntry.start) : ℚ) ≤ ((now : Nat) : ℚ) := by
    exact_mod_cast hle
  exact mul_nonneg (div_nonneg (by linarith) (by norm_num)) (by norm_num)

/-- Witness for progress_tick_formula: the mount-time timer starts at 1000
and a tick at 3500 is sampled. -/
theorem progress_tick_formula_witness :
    (step (mountState 1000 "alice") (Event.progressTick 3500)).loadingValue =
        min 100 (100 * ((((3500 : Nat) : ℚ) -
          (listMin ((mountState 1000 "alice").timers.map TimerEntry.start) : ℚ)) / 5000)) ∧
      (step (mountState 1000 "alice") (Event.progressTick 3500)).loadingValue ≤ 100 ∧
      (listMin ((mountState 1000 "alice").timers.map TimerEntry.start) ≤ 3500 →
        0 ≤ (step (mountState 1000 "alice") (Event.progressTick 3500)).loadingValue) :=
  progress_tick_formula (mountState 1000 "alice") 3500 (by decide) (by decide)
    (by decide) (by decide)

/-- Claim C3, counterexample to the claim as stated.  The id default uses
JavaScript truthiness, so a supplied id of 0 is treated as absent: a
parseable bot payload with id 0 arriving at clock instant 777 is appended
with id 777, not with the supplied id 0. -/
theorem inbound_zero_id_gets_clock :
    ((step (step (mountState 1 "alice") Event.wsOpen)
        (Event.inbound 777 (some ⟨some 0, some botSender, some "hey"⟩))).messages.get? 1 =
      some ⟨777, botSender, "hey", some true⟩) ∧
      ¬ ((step (step (mountState 1 "alice") Event.wsOpen)
          (Event.inbound 777 (some ⟨some 0, some botSender, some "hey"⟩))).messages.get? 1 =
        some ⟨0, botSender, "hey", some true⟩) :=
  ⟨by decide, by decide⟩

/-- Claim C3, amended: an inbound event with a parseable payload whose
sender equals the bot identity appends exactly one visible bot message
whose text defaults through (payload.text || '') and whose id equals the
payload id when a truthy (nonzero) one is supplied and the clock instant
otherwise (absent or zero id); any other sender leaves the state completely
unchanged. -/
theorem inbound_bot_semantics (s : ChatState) (t : Nat) (p : InPayload)
    (hm : s.mounted = true) (hw : s.wsConnected = true) :
    (p.sender = some botSender →
        (step s (Event.inbound t (some p))).messages =
          s.messages ++ [⟨jsOrNat p.id t, botSender, jsOrStr p.text "", some true⟩]) ∧
      (p.sender ≠ some botSender → step s (Event.inbound t (some p)) = s) := by
  have hst : step s (Event.inbound t (some p)) = onMessage t (some p) s := by
    simp [step, hm, hw]
  constructor
  · intro hb
    rw [hst]
    exact onMessage_bot_messages t p s hb
  · intro hb
    rw [hst]
    exact onMessage_not_bot t p s hb

/-- Witness for inbound_bot_semantics: a bot payload with id 5 and text yo
arriving at clock instant 9 over an open socket. -/
theorem inbound_bot_semantics_witness :
    (step (step (mountState 1 "alice") Event.wsOpen)
        (Event.inbound 9 (some ⟨some 5, some botSender, some "yo"⟩))).messages =
      (step (mountState 1 "alice") Event.wsOpen).messages ++
        [⟨jsOrNat (some 5) 9, botSender, jsOrStr (some "yo") "", some true⟩] :=
  (inbound_bot_semantics (step (mountState 1 "alice") Event.wsOpen) 9
    ⟨some 5, some botSender, some "yo"⟩ (by decide) (by decide)).1 rfl

/-- Claim C9, counterexample to the claim as stated.  The player-name
default uses JavaScript truthiness, so a supplied empty player_name is
treated as missing and replaced by user_id instead of being kept. -/
theorem normalize_empty_player_name :
    (normalizeUser ⟨"u1", some "", some true, some []⟩).player_name = "u1" ∧
      (normalizeUser ⟨"u1", some "", some true, some []⟩).player_name ≠ "" :=
  ⟨by decide, by decide⟩

/-- Claim C9, amended: the normalized record keeps a supplied nonempty
player_name and falls back to user_id when player_name is missing or empty
(JavaScript truthiness), coerces connected to a boolean with false for a
missing value, and keeps a present messages_sent sequence (even an empty
one, arrays being truthy) while defaulting a missing one to the empty
sequence; the normalization is applied record-wise over the fetched list. -/
theorem normalize_user_fields (u : RawUser) (data : List RawUser) (i : Nat) :
    ((u.player_name = none ∨ u.player_name = some "") →
        (normalizeUser u).player_name = u.user_id) ∧
      (∀ nm : String, u.player_name = some nm → nm ≠ "" →
        (normalizeUser u).player_name = nm) ∧
      (normalizeUser u).connected = u.connected.getD false ∧
      (∀ l : List String, u.messages_sent = some l →
        (normalizeUser u).messages_sent = l) ∧
      (u.messages_sent = none → (normalizeUser u).messages_sent = []) ∧
      (normalizeUsers data).get? i = (data.get? i).map normalizeUser := by
  refine ⟨?_, ?_, rfl, ?_, ?_, ?_⟩
  · intro h
    rcases h with h | h <;> simp [normalizeUser, jsOrStr, h]
  · intro nm hnm hne
    simp [normalizeUser, jsOrStr, hnm, hne]
  · intro l hl
    simp [normalizeUser, hl]
  · intro hn
    simp [normalizeUser, hn]
  · simp [normalizeUsers, List.get?_map]

/-- Witness for normalize_user_fields: a record with nonempty player name
bob and missing connected and messages_sent fields. -/
theorem normalize_user_fields_witness :
    (normalizeUser ⟨"u2", some "bob", none, none⟩).player_name = "bob" ∧
      (normalizeUser ⟨"u2", some "bob", none, none⟩).connected = false ∧
      (normalizeUser ⟨"u2", some "bob", none, none⟩).messages_sent = [] ∧
      (normalizeUsers []).get? 0 = none := by
  have h := normalize_user_fields ⟨"u2", some "bob", none, none⟩ [] 0
  exact ⟨h.2.1 "bob" rfl (by decide), h.2.2.1, h.2.2.2.2.1 rfl, h.2.2.2.2.2⟩

end TeamText
